import Mathlib

/-!
Verification of the two utility functions in `src/sample.py`:

```python
def calculate_total(items):
    return sum(item["price"] for item in items if item["price"] > 0)

def get_user_name(user):
    return user.get("name", "Unknown") if user else "Unknown"
```

We embed the fragment of Python dynamic values these functions touch:
dictionary values are numbers, strings, or `None`; dictionaries are
association lists with string keys; subscripting a missing key raises
`KeyError`; ordering a non-number against `0` raises `TypeError`.
-/

set_option autoImplicit false

namespace Mandrel

/-- A Python value as it can appear in the dictionaries these functions read:
a number (modelled as an integer), a string, or `None`. -/
inductive Value where
  | num (n : Int)
  | str (s : String)
  | none
  deriving DecidableEq, Repr

/-- A Python dictionary with string keys, as an association list. -/
abbrev Dict := List (String × Value)

/-- The exceptions the two functions can raise: `KeyError` from subscripting
a missing key, `TypeError` from ordering a non-number against a number. -/
inductive PyError where
  | keyError (k : String)
  | typeError
  deriving DecidableEq, Repr

/-- Dictionary membership lookup, `d.get(k)` / `k in d`: the value stored
under `k`, if any. -/
def dictGet (d : Dict) (k : String) : Option Value :=
  match d with
  | [] => Option.none
  | (k', v) :: rest => if k' = k then some v else dictGet rest k

/-- Python subscript `d[k]`: the stored value, or a `KeyError` when the key
is absent. -/
def subscript (d : Dict) (k : String) : Except PyError Value :=
  match dictGet d k with
  | some v => Except.ok v
  | Option.none => Except.error (PyError.keyError k)

/-- `calculate_total(items)`: left-to-right over the sequence, look up
`item["price"]` (KeyError if absent), compare it against `0` (TypeError if
it is not a number), and sum the values that are strictly positive.
The first exception raised aborts the whole computation. -/
def calculate_total : List Dict → Except PyError Int
  | [] => Except.ok 0
  | item :: rest =>
    match subscript item "price" with
    | Except.error e => Except.error e
    | Except.ok (Value.num n) =>
      match calculate_total rest with
      | Except.error e => Except.error e
      | Except.ok s => if 0 < n then Except.ok (n + s) else Except.ok s
    | Except.ok _ => Except.error PyError.typeError

/-- `get_user_name(user)`: `user` is `None` or a dictionary.  Python
truthiness makes both `None` and the empty dictionary falsy, so both take
the `Unknown` branch; otherwise `user.get("name", "Unknown")` returns the
stored value when the key `name` is present (whatever that value is) and
the default `Unknown` otherwise. -/
def get_user_name : Option Dict → Value
  | Option.none => Value.str "Unknown"
  | some d =>
    if d.isEmpty then Value.str "Unknown"
    else (dictGet d "name").getD (Value.str "Unknown")

/-- The `price` entry of an item, when present and numeric. -/
def priceOf (it : Dict) : Option Int :=
  match dictGet it "price" with
  | some (Value.num n) => some n
  | _ => Option.none

/-- The item carries a `price` key (with any value). -/
def hasPrice (it : Dict) : Bool :=
  (dictGet it "price").isSome

/-- The item carries a numeric `price` entry. -/
def hasNumericPrice (it : Dict) : Bool :=
  (priceOf it).isSome

/-- The `price` entry of the item, when present, is numeric. -/
def priceWellTyped (it : Dict) : Bool :=
  match dictGet it "price" with
  | some (Value.num _) => true
  | some _ => false
  | Option.none => true

/-- Spec-side description of the Total Calculator contract, written from
the words of the spec: the arithmetic sum of exactly those price values that
are strictly greater than zero. -/
def positive_total (items : List Dict) : Int :=
  ((items.filterMap priceOf).filter (fun n => decide (0 < n))).sum

/- ### Basic computation lemmas -/

theorem calculate_total_nil : calculate_total [] = Except.ok 0 := rfl

theorem calculate_total_cons_num (it : Dict) (rest : List Dict) (n : Int)
    (h : dictGet it "price" = some (Value.num n)) :
    calculate_total (it :: rest) =
      match calculate_total rest with
      | Except.error e => Except.error e
      | Except.ok s => if 0 < n then Except.ok (n + s) else Except.ok s := by
  simp [calculate_total, subscript, h]

theorem calculate_total_cons_missing (it : Dict) (rest : List Dict)
    (h : dictGet it "price" = Option.none) :
    calculate_total (it :: rest) = Except.error (PyError.keyError "price") := by
  simp [calculate_total, subscript, h]

theorem calculate_total_cons_badtype (it : Dict) (rest : List Dict) (v : Value)
    (h : dictGet it "price" = some v) (hv : ∀ n, v ≠ Value.num n) :
    calculate_total (it :: rest) = Except.error PyError.typeError := by
  cases v with
  | num n => exact absurd rfl (hv n)
  | str s => simp [calculate_total, subscript, h]
  | none => simp [calculate_total, subscript, h]

theorem hasNumericPrice_iff (it : Dict) :
    hasNumericPrice it = true ↔ ∃ n, dictGet it "price" = some (Value.num n) := by
  unfold hasNumericPrice priceOf
  cases hd : dictGet it "price" with
  | none => simp [hd]
  | some v =>
    cases v <;> simp [hd, Option.isSome]

/-- Core correctness of `calculate_total`: when every item carries a numeric
price, it returns the sum of the strictly positive prices. -/
theorem calculate_total_ok (items : List Dict)
    (h : ∀ it ∈ items, hasNumericPrice it = true) :
    calculate_total items = Except.ok (positive_total items) := by
  induction items with
  | nil => rfl
  | cons it rest ih =>
    obtain ⟨n, hn⟩ := (hasNumericPrice_iff it).mp (h it (List.mem_cons_self it rest))
    have hrest := ih (fun x hx => h x (List.mem_cons_of_mem it hx))
    rw [calculate_total_cons_num it rest n hn, hrest]
    unfold positive_total
    rw [List.filterMap_cons]
    have hp : priceOf it = some n := by unfold priceOf; rw [hn]
    rw [hp]
    by_cases hpos : 0 < n
    · simp [List.filter_cons, hpos, positive_total]
    · simp [List.filter_cons, hpos, positive_total]

theorem positive_total_append (xs ys : List Dict) :
    positive_total (xs ++ ys) = positive_total xs + positive_total ys := by
  unfold positive_total
  rw [List.filterMap_append, List.filter_append, List.sum_append]

/-- If some item lacks a numeric price (the key is missing or its value is
not a number), the whole computation raises. -/
theorem calculate_total_error_of_bad (items : List Dict)
    (h : ∃ it ∈ items, hasNumericPrice it = false) :
    ∃ e, calculate_total items = Except.error e := by
  induction items with
  | nil => obtain ⟨it, hit, _⟩ := h; exact absurd hit (List.not_mem_nil it)
  | cons hd rest ih =>
    cases hnum : hasNumericPrice hd with
    | false =>
      unfold hasNumericPrice priceOf at hnum
      cases hd' : dictGet hd "price" with
      | none =>
        exact ⟨_, calculate_total_cons_missing hd rest hd'⟩
      | some v =>
        cases v with
        | num n => rw [hd'] at hnum; simp [Option.isSome] at hnum
        | str s =>
          exact ⟨_, calculate_total_cons_badtype hd rest _ hd' (fun n h => by cases h)⟩
        | none =>
          exact ⟨_, calculate_total_cons_badtype hd rest _ hd' (fun n h => by cases h)⟩
    | true =>
      obtain ⟨n, hn⟩ := (hasNumericPrice_iff hd).mp hnum
      have hrest : ∃ it ∈ rest, hasNumericPrice it = false := by
        obtain ⟨it, hit, hbad⟩ := h
        rcases List.mem_cons.mp hit with heq | hmem
        · subst heq; rw [hnum] at hbad; cases hbad
        · exact ⟨it, hmem, hbad⟩
      obtain ⟨e, he⟩ := ih hrest
      refine ⟨e, ?_⟩
      rw [calculate_total_cons_num hd rest n hn, he]

/-- When every present price is numeric and some item lacks the key, the
computation raises exactly `KeyError("price")`. -/
theorem calculate_total_keyError (items : List Dict)
    (h1 : ∀ it ∈ items, priceWellTyped it = true)
    (h2 : ∃ it ∈ items, hasPrice it = false) :
    calculate_total items = Except.error (PyError.keyError "price") := by
  induction items with
  | nil => obtain ⟨it, hit, _⟩ := h2; exact absurd hit (List.not_mem_nil it)
  | cons hd rest ih =>
    cases hd' : dictGet hd "price" with
    | none => exact calculate_total_cons_missing hd rest hd'
    | some v =>
      have hwt := h1 hd (List.mem_cons_self hd rest)
      unfold priceWellTyped at hwt
      rw [hd'] at hwt
      cases v with
      | str s => cases hwt
      | none => cases hwt
      | num n =>
        have hrest2 : ∃ it ∈ rest, hasPrice it = false := by
          obtain ⟨it, hit, hbad⟩ := h2
          rcases List.mem_cons.mp hit with heq | hmem
          · subst heq; unfold hasPrice at hbad; rw [hd'] at hbad; cases hbad
          · exact ⟨it, hmem, hbad⟩
        have hres := ih (fun x hx => h1 x (List.mem_cons_of_mem hd hx)) hrest2
        rw [calculate_total_cons_num hd rest n hd', hres]

/-- When every item carries the `price` key and some carried value is not a
number, the computation raises exactly `TypeError`. -/
theorem calculate_total_typeError (items : List Dict)
    (h1 : ∀ it ∈ items, hasPrice it = true)
    (h2 : ∃ it ∈ items, hasNumericPrice it = false) :
    calculate_total items = Except.error PyError.typeError := by
  induction items with
  | nil => obtain ⟨it, hit, _⟩ := h2; exact absurd hit (List.not_mem_nil it)
  | cons hd rest ih =>
    cases hd' : dictGet hd "price" with
    | none =>
      have := h1 hd (List.mem_cons_self hd rest)
      unfold hasPrice at this
      rw [hd'] at this
      cases this
    | some v =>
      cases v with
      | num n =>
        have hrest2 : ∃ it ∈ rest, hasNumericPrice it = false := by
          obtain ⟨it, hit, hbad⟩ := h2
          rcases List.mem_cons.mp hit with heq | hmem
          · rw [heq] at hbad
            rw [(hasNumericPrice_iff hd).mpr ⟨n, hd'⟩] at hbad
            cases hbad
          · exact ⟨it, hmem, hbad⟩
        have hres := ih (fun x hx => h1 x (List.mem_cons_of_mem hd hx)) hrest2
        rw [calculate_total_cons_num hd rest n hd', hres]
      | str s => exact calculate_total_cons_badtype hd rest _ hd' (fun n h => by cases h)
      | none => exact calculate_total_cons_badtype hd rest _ hd' (fun n h => by cases h)

/- ### `get_user_name` lemmas -/

/-- Any dictionary that stores a value under `name` is non-empty, so it is
truthy and `get_user_name` returns the stored value verbatim. -/
theorem get_user_name_stored (d : Dict) (v : Value)
    (h : dictGet d "name" = some v) : get_user_name (some d) = v := by
  cases d with
  | nil => simp [dictGet] at h
  | cons kv rest => simp [get_user_name, List.isEmpty, h]

/-- A truthy dictionary with no `name` key falls back to `Unknown`; the
empty dictionary is falsy and also yields `Unknown`. -/
theorem get_user_name_absent (d : Dict)
    (h : dictGet d "name" = Option.none) :
    get_user_name (some d) = Value.str "Unknown" := by
  cases d with
  | nil => rfl
  | cons kv rest => simp [get_user_name, List.isEmpty, h]

/- ### Claim theorems -/

/-- C1: for every sequence of items each having a numeric `price` field,
`calculate_total` returns the arithmetic sum of exactly those price values
that are strictly greater than zero; items with zero or negative price
contribute nothing to the sum. -/
theorem c1_total_is_sum_of_positive_prices (items : List Dict)
    (h : ∀ it ∈ items, hasNumericPrice it = true) :
    calculate_total items = Except.ok (positive_total items) :=
  calculate_total_ok items h

theorem c1_witness :
    calculate_total
        [[("price", Value.num 5)], [("price", Value.num (-3))], [("price", Value.num 2)]]
      = Except.ok (positive_total
        [[("price", Value.num 5)], [("price", Value.num (-3))], [("price", Value.num 2)]])
    ∧ positive_total
        [[("price", Value.num 5)], [("price", Value.num (-3))], [("price", Value.num 2)]] = 7 :=
  ⟨c1_total_is_sum_of_positive_prices _ (by decide), by decide⟩

/-- C2: `get_user_name` returns `Unknown` for an absent user and for the
empty mapping, and returns the stored name when the user is a mapping
containing the `name` field; in particular the three documented cases. -/
theorem c2_get_user_name_cases :
    get_user_name Option.none = Value.str "Unknown"
    ∧ get_user_name (some []) = Value.str "Unknown"
    ∧ (∀ (d : Dict) (v : Value), dictGet d "name" = some v → get_user_name (some d) = v)
    ∧ get_user_name (some [("name", Value.str "Alice")]) = Value.str "Alice" :=
  ⟨rfl, rfl, fun d v h => get_user_name_stored d v h, rfl⟩

theorem c2_witness :
    get_user_name (some [("name", Value.str "Bob")]) = Value.str "Bob" :=
  c2_get_user_name_cases.2.2.1 [("name", Value.str "Bob")] (Value.str "Bob") (by decide)

/-- C3 counterexample: a present user mapping whose `name` key is set to the
null value makes `get_user_name` return that null verbatim, not `Unknown`,
so the claim as stated is false. -/
theorem c3_counterexample :
    get_user_name (some [("name", Value.none)]) = Value.none
    ∧ Value.none ≠ Value.str "Unknown" :=
  ⟨rfl, by decide⟩

/-- C3 (amended): for every user value that is present (a non-null mapping)
but whose `name` key is absent, `get_user_name` returns `Unknown`; a `name`
key present with a null value yields that null instead. -/
theorem c3_amended_absent_name_is_unknown (d : Dict)
    (h : dictGet d "name" = Option.none) :
    get_user_name (some d) = Value.str "Unknown" :=
  get_user_name_absent d h

theorem c3_witness :
    get_user_name (some [("age", Value.num 3)]) = Value.str "Unknown" :=
  c3_amended_absent_name_is_unknown [("age", Value.num 3)] (by decide)

/-- C4 counterexample: in the sequence with first item `{price: "x"}` and
second item `{}`, an item lacks the `price` field, yet the computation fails
with `TypeError` (raised earlier by the non-numeric price), not with the
key-lookup error predicted by the claim as stated. -/
theorem c4_counterexample :
    hasPrice ([] : Dict) = false
    ∧ calculate_total [[("price", Value.str "x")], []] = Except.error PyError.typeError
    ∧ calculate_total [[("price", Value.str "x")], []]
        ≠ Except.error (PyError.keyError "price") := by
  refine ⟨rfl, rfl, ?_⟩
  intro h
  rw [show calculate_total [[("price", Value.str "x")], []]
      = Except.error PyError.typeError from rfl] at h
  simp at h

/-- C4 (amended): if any item lacks the `price` field the whole computation
aborts with an error, so no partial sum is returned; the error is the
key-lookup error `KeyError("price")` provided every item that does carry the
field carries a numeric value. -/
theorem c4_amended_missing_price_aborts (items : List Dict)
    (h : ∃ it ∈ items, hasPrice it = false) :
    (∃ e, calculate_total items = Except.error e)
    ∧ ((∀ it ∈ items, priceWellTyped it = true) →
        calculate_total items = Except.error (PyError.keyError "price")) := by
  constructor
  · apply calculate_total_error_of_bad
    obtain ⟨it, hit, hbad⟩ := h
    refine ⟨it, hit, ?_⟩
    unfold hasPrice at hbad
    unfold hasNumericPrice priceOf
    cases hd : dictGet it "price" with
    | none => rfl
    | some v => rw [hd] at hbad; simp [Option.isSome] at hbad
  · intro h1
    exact calculate_total_keyError items h1 h

theorem c4_witness :
    calculate_total [[("price", Value.num 1)], []]
      = Except.error (PyError.keyError "price") :=
  (c4_amended_missing_price_aborts [[("price", Value.num 1)], []] (by decide)).2 (by decide)

/-- C5 counterexample: in the sequence with first item `{}` and second item
`{price: "x"}`, an item carries a present non-numeric price, yet the
computation fails with `KeyError("price")` (raised earlier by the missing
key), not with the type error predicted by the claim as stated. -/
theorem c5_counterexample :
    hasPrice [("price", Value.str "x")] = true
    ∧ hasNumericPrice [("price", Value.str "x")] = false
    ∧ calculate_total [[], [("price", Value.str "x")]]
        = Except.error (PyError.keyError "price")
    ∧ calculate_total [[], [("price", Value.str "x")]] ≠ Except.error PyError.typeError := by
  refine ⟨rfl, rfl, rfl, ?_⟩
  intro h
  rw [show calculate_total [[], [("price", Value.str "x")]]
      = Except.error (PyError.keyError "price") from rfl] at h
  simp at h

/-- C5 (amended): if some item carries a present non-numeric `price` value
the whole computation aborts with an error rather than returning a result;
the error is `TypeError` (from comparing that value against zero) provided
every item carries the `price` field. -/
theorem c5_amended_nonnumeric_price_aborts (items : List Dict)
    (h : ∃ it ∈ items, hasPrice it = true ∧ hasNumericPrice it = false) :
    (∃ e, calculate_total items = Except.error e)
    ∧ ((∀ it ∈ items, hasPrice it = true) →
        calculate_total items = Except.error PyError.typeError) := by
  constructor
  · apply calculate_total_error_of_bad
    obtain ⟨it, hit, _, hbad⟩ := h
    exact ⟨it, hit, hbad⟩
  · intro h1
    apply calculate_total_typeError items h1
    obtain ⟨it, hit, _, hbad⟩ := h
    exact ⟨it, hit, hbad⟩

theorem c5_witness :
    calculate_total [[("price", Value.str "x")]] = Except.error PyError.typeError :=
  (c5_amended_nonnumeric_price_aborts [[("price", Value.str "x")]] (by decide)).2 (by decide)

/-- C6: `calculate_total` applied to the empty sequence returns `0`. -/
theorem c6_empty_sequence_total_zero : calculate_total [] = Except.ok 0 := rfl

/-- C7: `get_user_name` never fails: for every input it returns a value —
either the fallback `Unknown` or the value stored under the `name` key —
rather than raising an error. -/
theorem c7_get_user_name_never_fails (user : Option Dict) :
    get_user_name user = Value.str "Unknown"
    ∨ ∃ d, user = some d ∧ dictGet d "name" = some (get_user_name user) := by
  cases user with
  | none => exact Or.inl rfl
  | some d =>
    cases hd : dictGet d "name" with
    | none => exact Or.inl (get_user_name_absent d hd)
    | some v =>
      refine Or.inr ⟨d, rfl, ?_⟩
      rw [get_user_name_stored d v hd]
      exact hd

/-- C8: both functions are deterministic — equal inputs give equal results,
the result depending on nothing outside the parameters (the embedding of
either function reads no other state). -/
theorem c8_deterministic :
    (∀ (xs ys : List Dict), xs = ys → calculate_total xs = calculate_total ys)
    ∧ (∀ (u w : Option Dict), u = w → get_user_name u = get_user_name w) :=
  ⟨fun xs ys h => by rw [h], fun u w h => by rw [h]⟩

theorem c8_witness :
    calculate_total [[("price", Value.num 5)]] = calculate_total [[("price", Value.num 5)]]
    ∧ get_user_name (some [("name", Value.str "Alice")])
        = get_user_name (some [("name", Value.str "Alice")]) :=
  ⟨c8_deterministic.1 [[("price", Value.num 5)]] [[("price", Value.num 5)]] rfl,
   c8_deterministic.2 (some [("name", Value.str "Alice")]) (some [("name", Value.str "Alice")]) rfl⟩

/-- C9: for every user mapping that contains the key `name`, `get_user_name`
returns the stored value verbatim — even when that value is null or the
empty string — so the fallback is never triggered by the stored value. -/
theorem c9_stored_name_returned_verbatim :
    (∀ (d : Dict) (v : Value), dictGet d "name" = some v → get_user_name (some d) = v)
    ∧ get_user_name (some [("name", Value.none)]) = Value.none
    ∧ get_user_name (some [("name", Value.str "")]) = Value.str "" :=
  ⟨fun d v h => get_user_name_stored d v h, rfl, rfl⟩

theorem c9_witness :
    get_user_name (some [("name", Value.num 7)]) = Value.num 7 :=
  c9_stored_name_returned_verbatim.1 [("name", Value.num 7)] (Value.num 7) (by decide)

/-- C10: `calculate_total` is additive over concatenation — for sequences
whose items all carry numeric `price` fields, the total of `xs ++ ys` is the
sum of the totals of `xs` and `ys`. -/
theorem c10_total_additive_over_append (xs ys : List Dict)
    (h : ∀ it ∈ xs ++ ys, hasNumericPrice it = true) :
    ∃ a b, calculate_total xs = Except.ok a
      ∧ calculate_total ys = Except.ok b
      ∧ calculate_total (xs ++ ys) = Except.ok (a + b) := by
  have hxs : ∀ it ∈ xs, hasNumericPrice it = true :=
    fun it hit => h it (List.mem_append_left ys hit)
  have hys : ∀ it ∈ ys, hasNumericPrice it = true :=
    fun it hit => h it (List.mem_append_right xs hit)
  exact ⟨positive_total xs, positive_total ys,
    calculate_total_ok xs hxs, calculate_total_ok ys hys,
    by rw [calculate_total_ok (xs ++ ys) h, positive_total_append]⟩

theorem c10_witness :
    ∃ a b, calculate_total [[("price", Value.num 5)]] = Except.ok a
      ∧ calculate_total [[("price", Value.num (-3))], [("price", Value.num 2)]] = Except.ok b
      ∧ calculate_total
          ([[("price", Value.num 5)]] ++ [[("price", Value.num (-3))], [("price", Value.num 2)]])
        = Except.ok (a + b) :=
  c10_total_additive_over_append
    [[("price", Value.num 5)]] [[("price", Value.num (-3))], [("price", Value.num 2)]]
    (by decide)

end Mandrel
